import Mathlib

/-!
Verification of the uchroma frame-compositing and device-streaming engine.

The definitions below are a shallow embedding of the Python sources
`uchroma/frame.py` and `uchroma/anim.py`.  Pixel channel values are
modelled as exact rationals, numpy integer/float arrays as lists, the
device transport as a trace of issued events, and fallible Python calls
as values in the `Except` monad.
-/

namespace UChroma

/-- A Python runtime error raised by the embedded code. -/
inductive PyErr
  | valueError
  | typeError
  | attributeError
  deriving DecidableEq, Repr

/-- A 4-channel RGBA pixel, as stored in the Frame backing matrix
(`np.zeros(shape=(height, width, 4))` in `Frame.__init__`). -/
structure PColor where
  red : ℚ
  green : ℚ
  blue : ℚ
  alpha : ℚ
  deriving DecidableEq, Repr

/-- The all-zero (transparent black) pixel used by `clear`. -/
def czero : PColor := ⟨0, 0, 0, 0⟩

/-- The backing matrix of a Frame: rows of pixels. -/
abbrev PMatrix := List (List PColor)

/-- Read a cell of the matrix (`matrix[row][col]`). -/
def getCell (m : PMatrix) (r c : ℕ) : PColor := (m.getD r []).getD c czero

/-- Write a cell of the matrix (`matrix[row][col] = v`). -/
def setCell (m : PMatrix) (r c : ℕ) (v : PColor) : PMatrix :=
  m.set r ((m.getD r []).set c v)

/-- A numpy vector argument: an integer array or a float array. -/
inductive NpVec
  | ints (xs : List ℤ)
  | floats (xs : List ℚ)
  deriving DecidableEq, Repr

/-- The `alpha` argument of `Frame._set_color`: a scalar or an array
(`np.isscalar(alpha)` selects the broadcast in the source). -/
inductive AlphaArg
  | scalar (q : ℚ)
  | vec (xs : List ℚ)
  deriving DecidableEq, Repr

/-- `img.shape[0]` of the backing matrix. -/
def shape0 (m : PMatrix) : ℕ := m.length

/-- `img.shape[1]` of the backing matrix. -/
def shape1 (m : PMatrix) : ℕ := (m.headD []).length

/-- The bounds mask of `Frame._coords_inside_image`:
`(rr >= 0) & (rr < shape[0]) & (cc >= 0) & (cc < shape[1])`. -/
def insideMask (m : PMatrix) (r c : ℤ) : Bool :=
  decide (0 ≤ r) && decide (r < (shape0 m : ℤ)) &&
  decide (0 ≤ c) && decide (c < (shape1 m : ℤ))

/-- `Frame._coords_inside_image(rr, cc, shape, val)`: keep only the
coordinate/value triples whose coordinates are inside the image. -/
def coords_inside_image (m : PMatrix) (triples : List (ℤ × ℤ × ℚ)) :
    List (ℤ × ℤ × ℚ) :=
  triples.filter fun t => insideMask m t.1 t.2.1

/-- Alpha blending of one cell, as in `Frame._set_color`:
`img[rr, cc] = img[rr, cc] * (1 - alpha) + color * alpha`,
applied channel-wise over all four channels. -/
def blend (old : PColor) (c : PColor) (a : ℚ) : PColor :=
  ⟨old.red * (1 - a) + c.red * a,
   old.green * (1 - a) + c.green * a,
   old.blue * (1 - a) + c.blue * a,
   old.alpha * (1 - a) + c.alpha * a⟩

/-- The vectorized read-then-write of `Frame._set_color` after masking:
`vals = img[rr, cc] * (1 - alpha)` is computed against the original
matrix, then `img[rr, cc] = vals + color * alpha` assigns in order. -/
def setColorOk (m : PMatrix) (rr cc : List ℤ) (c : PColor) (alphas : List ℚ) :
    PMatrix :=
  let triples := (rr.zip (cc.zip alphas))
  let kept := coords_inside_image m (triples.map fun t => (t.1, t.2.1, t.2.2))
  let writes := kept.map fun t => (t.1.toNat, t.2.1.toNat, blend (getCell m t.1.toNat t.2.1.toNat) c t.2.2)
  writes.foldl (fun acc w => setCell acc w.1 w.2.1 w.2.2) m

/-- `Frame._set_color(img, coords, color, alpha)`.  The first statement
of the source is the tuple unpacking `rr, cc = coords`, which raises
`ValueError` unless `coords` has exactly two components; indexing with
non-integer arrays is likewise an error. -/
def set_color (m : PMatrix) (coords : List NpVec) (c : PColor)
    (alpha : AlphaArg) : Except PyErr PMatrix :=
  match coords with
  | [NpVec.ints rr, NpVec.ints cc] =>
      let alphas := match alpha with
        | AlphaArg.scalar q => List.replicate rr.length q
        | AlphaArg.vec xs => xs
      Except.ok (setColorOk m rr cc c alphas)
  | _ => Except.error PyErr.valueError

/-- RGB pixel data as flattened for the wire (bytes of a row). -/
abbrev Rgb := ℚ × ℚ × ℚ

/-- Modelled from the spec: `ColorUtils.rgba2rgb` (uchroma/color.py is
not among the sources).  Per §4.1, `flatten(base_color)` produces an
opaque RGB image: `opaque = pixel.rgb * pixel.a + base_color * (1 - pixel.a)`. -/
def rgba2rgb (m : PMatrix) (base : Rgb) : List (List Rgb) :=
  m.map fun row => row.map fun p =>
    (p.red * p.alpha + base.1 * (1 - p.alpha),
     p.green * p.alpha + base.2.1 * (1 - p.alpha),
     p.blue * p.alpha + base.2.2 * (1 - p.alpha))

/-- The `Frame` object: fixed width and height, the RGBA backing matrix
and the base color used when flattening for transmission. -/
structure Frame where
  width : ℕ
  height : ℕ
  matrix : PMatrix
  base : Rgb
  deriving DecidableEq, Repr

/-- The backing matrix is an `height × width` rectangle. -/
def Frame.wf (f : Frame) : Prop :=
  f.matrix.length = f.height ∧ ∀ row ∈ f.matrix, row.length = f.width

instance (f : Frame) : Decidable f.wf := by
  unfold Frame.wf; infer_instance

/-- `Frame.clear`: `self._matrix.fill(0)`. -/
def Frame.clear (f : Frame) : Frame :=
  { f with matrix := f.matrix.map fun row => row.map fun _ => czero }

/-- `Frame.get(row, col)`: `to_color(tuple(self._matrix[row][col]))`. -/
def Frame.get (f : Frame) (row col : ℕ) : PColor := getCell f.matrix row col

/-- `Frame.put(row, col, color)`:
`Frame._set_color(self._matrix, (np.atleast_1d(row), np.atleast_1d(col)), tuple(color))`
with the default scalar alpha of 1. -/
def Frame.put (f : Frame) (row col : ℤ) (c : PColor) : Except PyErr Frame :=
  (set_color f.matrix [NpVec.ints [row], NpVec.ints [col]] c
    (AlphaArg.scalar 1)).map fun m => { f with matrix := m }

/-- `Frame.line(row1, col1, row2, col2, color)`.  The rasterization
`rr, cc, aa = draw.line_aa(...)` is performed by the external skimage
library, so its output arrays are taken as parameters; the source then
calls `Frame._set_color(self._matrix, (rr, cc, aa), tuple(color), aa)`,
passing the coverage array `aa` as a third component of the coordinate
tuple. -/
def Frame.line (f : Frame) (rr cc : List ℤ) (aa : List ℚ) (c : PColor) :
    Except PyErr Frame :=
  (set_color f.matrix [NpVec.ints rr, NpVec.ints cc, NpVec.floats aa] c
    (AlphaArg.vec aa)).map fun m => { f with matrix := m }

/-- `Frame.circle(row, col, radius, color, fill)`.  The rasterized
coordinate arrays come from the external skimage `draw.circle` /
`draw.circle_perimeter_aa` calls and are taken as parameters; the source
passes `(rr, cc)` as the coordinate tuple, with coverage `aa` as the
alpha argument in the anti-aliased (non-filled) branch. -/
def Frame.circle (f : Frame) (rr cc : List ℤ) (aa : List ℚ) (fill : Bool)
    (c : PColor) : Except PyErr Frame :=
  if fill then
    (set_color f.matrix [NpVec.ints rr, NpVec.ints cc] c
      (AlphaArg.scalar 1)).map fun m => { f with matrix := m }
  else
    (set_color f.matrix [NpVec.ints rr, NpVec.ints cc] c
      (AlphaArg.vec aa)).map fun m => { f with matrix := m }

/-! ## Device protocol encoder (`_set_frame_data*`, `prepare`, `commit`, `update`) -/

/-- One event issued to the device transport: a matrix-mode row write
(`run_command(SET_FRAME_DATA_MATRIX, frame_id, row, 0, width, data,
transaction_id, remaining_packets)`), a single-row write
(`run_command(SET_FRAME_DATA_SINGLE, 0, width, data, transaction_id=0x80)`),
or the display flip issued by `commit` (`driver.custom_frame()`). -/
inductive Event
  | matrixRow (frame_id : ℕ) (row : ℕ) (start_col : ℕ) (col_count : ℕ)
      (data : List Rgb) (transaction_id : Option ℕ) (remaining_packets : ℕ)
  | singleRow (start_col : ℕ) (col_count : ℕ) (data : List Rgb)
      (transaction_id : Option ℕ)
  | customFrame
  deriving DecidableEq, Repr

/-- `Frame.MAX_WIDTH`. -/
def MAX_WIDTH : ℕ := 24

/-- `Frame.DEFAULT_FRAME_ID`. -/
def DEFAULT_FRAME_ID : ℕ := 0xFF

/-- `Frame._as_img()`: `ColorUtils.rgba2rgb(self._matrix, self._base_color.rgb)`. -/
def Frame.asImg (f : Frame) : List (List Rgb) := rgba2rgb f.matrix f.base

/-- `Frame._set_frame_data_single(frame_id)`: one transaction with start
column 0, column count `min(width, MAX_WIDTH)`, the first `width` pixels
of row 0 of the flattened image, and transaction id `0x80`. -/
def Frame.setFrameDataSingle (f : Frame) : List Event :=
  let width := min f.width MAX_WIDTH
  [Event.singleRow 0 width ((f.asImg.headD []).take width) (some 0x80)]

/-- `Frame._set_frame_data_matrix(frame_id)`: one transaction per row,
with start column 0, column count `min(width, MAX_WIDTH)`, the row's
flattened pixel data, transaction id `0x80` exactly when the driver has
the `CUSTOM_FRAME_80` quirk, and `remaining_packets = height - row - 1`. -/
def Frame.setFrameDataMatrix (f : Frame) (frame_id : ℕ) (quirk80 : Bool) :
    List Event :=
  let width := min f.width MAX_WIDTH
  let tid := if quirk80 then some 0x80 else none
  (List.range f.height).map fun row =>
    Event.matrixRow frame_id row 0 width ((f.asImg.getD row []).take width)
      tid (f.height - row - 1)

/-- `Frame._set_frame_data(frame_id)`: default the frame id, then
dispatch on `height == 1`. -/
def Frame.setFrameData (f : Frame) (frame_id : Option ℕ) (quirk80 : Bool) :
    List Event :=
  let fid := frame_id.getD DEFAULT_FRAME_ID
  if f.height = 1 then f.setFrameDataSingle
  else f.setFrameDataMatrix fid quirk80

/-- `Frame.commit()`: `self._driver.custom_frame()`, one display-flip
event and no change to the buffer. -/
def Frame.commitRun (f : Frame) : Frame × List Event :=
  (f, [Event.customFrame])

/-- `Frame.prepare(frame_id)`: serialize the frame (read-only for the
duration), then `self.clear()`. -/
def Frame.prepareRun (f : Frame) (frame_id : Option ℕ) (quirk80 : Bool) :
    Frame × List Event :=
  (f.clear, f.setFrameData frame_id quirk80)

/-- `Frame.update(frame_id)`: serialize the frame, then `self.commit()`;
the buffer is not cleared. -/
def Frame.updateRun (f : Frame) (frame_id : Option ℕ) (quirk80 : Bool) :
    Frame × List Event :=
  (f, f.setFrameData frame_id quirk80 ++ [Event.customFrame])

/-- `prepare(frame_id)` followed by `commit()`, threading the buffer
state and concatenating the transport traces. -/
def Frame.prepareThenCommit (f : Frame) (frame_id : Option ℕ)
    (quirk80 : Bool) : Frame × List Event :=
  let p := f.prepareRun frame_id quirk80
  let c := p.1.commitRun
  (c.1, p.2 ++ c.2)

/-! ## Fallible transport execution (for the failure-path claims)

The device transport may reject any write: it is modelled as a function
assigning to each event either success (`none`) or an error code. -/

/-- Transport errors are abstract codes. -/
abbrev Transport := Event → Option ℕ

/-- Mutable state of a Frame as seen by `update`/`prepare`: the backing
matrix and its numpy writability flag (`matrix.setflags(write=...)`). -/
structure FrameSt where
  matrix : PMatrix
  writable : Bool
  deriving DecidableEq, Repr

/-- Issue a list of events in order, stopping at the first transport
error and propagating it unchanged. -/
def sendEvents (tr : Transport) : List Event → Except ℕ Unit
  | [] => Except.ok ()
  | e :: rest =>
      match tr e with
      | some err => Except.error err
      | none => sendEvents tr rest

/-- The first failure the transport reports on a list of events, if any. -/
def firstFailure (tr : Transport) : List Event → Option ℕ
  | [] => none
  | e :: rest =>
      match tr e with
      | some err => some err
      | none => firstFailure tr rest

/-- `Frame.update(frame_id)` with a fallible transport:
`try: setflags(write=False); _set_frame_data(frame_id); commit()
finally: setflags(write=True)`.  The result is the propagated outcome
together with the final frame state. -/
def Frame.updateF (f : Frame) (tr : Transport) (frame_id : Option ℕ)
    (quirk80 : Bool) : Except ℕ Unit × FrameSt :=
  let st : FrameSt := { matrix := f.matrix, writable := false }
  let res :=
    match sendEvents tr (f.setFrameData frame_id quirk80) with
    | Except.error e => Except.error e
    | Except.ok _ =>
        match tr Event.customFrame with
        | some e => Except.error e
        | none => Except.ok ()
  (res, { st with writable := true })

/-- `Frame.prepare(frame_id)` with a fallible transport: the
`try/finally` restores writability on every path; `self.clear()` runs
only when serialization did not raise. -/
def Frame.prepareF (f : Frame) (tr : Transport) (frame_id : Option ℕ)
    (quirk80 : Bool) : Except ℕ Unit × FrameSt :=
  let st : FrameSt := { matrix := f.matrix, writable := false }
  match sendEvents tr (f.setFrameData frame_id quirk80) with
  | Except.error e => (Except.error e, { st with writable := true })
  | Except.ok _ =>
      (Except.ok (), { matrix := f.clear.matrix, writable := true })

/-! ## Renderer execution model (`Renderer._run`, `Renderer._free_layer`) -/

/-- `NUM_BUFFERS` in anim.py. -/
def NUM_BUFFERS : ℕ := 2

/-- The Layer bookkeeping of one renderer: the number of layers in its
free pool (`_avail_q`), in its pending-composition queue (`_active_q`),
the number held by the compositing loop in this renderer's
`_active_bufs` slot (0 or 1), and the renderer's running flag. -/
structure RendSt where
  avail : ℕ
  active : ℕ
  held : ℕ
  running : Bool
  deriving DecidableEq, Repr

/-- The renderer's total circulating Layer count: free pool plus
pending-composition queue plus the loop-held slot. -/
def circulating (s : RendSt) : ℕ := s.avail + s.active + s.held

/-- Outcome of one `draw` invocation inside `Renderer._run`: it returned
True, returned False, or raised. -/
inductive DrawOutcome
  | drawn
  | notDrawn
  | raised
  deriving DecidableEq, Repr

/-- One iteration of the `Renderer._run` loop.  `none` means the
iteration cannot proceed: the loop has exited, or
`yield from self._avail_q.get()` blocks because the free pool is empty.
On an exception the loop breaks and `_stop` runs `_flush`, draining both
queues; on `draw` returning True the layer is locked and queued on
`_active_q`; on `draw` returning False the layer is neither queued nor
returned to `_avail_q`. -/
def runIteration (s : RendSt) (o : DrawOutcome) : Option RendSt :=
  if s.running = false then none
  else if s.avail = 0 then none
  else
    let s1 := { s with avail := s.avail - 1 }
    match o with
    | DrawOutcome.raised => some { s1 with avail := 0, active := 0, running := false }
    | DrawOutcome.drawn => some { s1 with active := s1.active + 1 }
    | DrawOutcome.notDrawn => some s1

/-- One execution of `AnimationLoop._dequeue` for this renderer, after
its `_active_q.get()` completes: the previous `_active_bufs` entry (if
any) is returned to the free pool via `_free_layer`, and the new buffer
occupies the slot.  `none` means the wait blocks (no pending layer). -/
def dequeueStep (s : RendSt) : Option RendSt :=
  if s.active = 0 then none
  else some { s with
    active := s.active - 1,
    avail := if s.held > 0 then s.avail + 1 else s.avail,
    held := 1 }

/-- The renderer state right after `AnimationLoop._create_buffers`:
`_flush` empties both queues, then `NUM_BUFFERS` fresh layers are pushed
onto the free pool via `_free_layer`; the loop holds nothing yet. -/
def freshRendSt : RendSt :=
  { avail := NUM_BUFFERS, active := 0, held := 0, running := true }

/-! ## Compositing loop and manager lifecycle -/

/-- State of an `AnimationLoop`: its running flag and the per-renderer
Layer bookkeeping. -/
structure LoopSt where
  running : Bool
  rend : List RendSt
  deriving DecidableEq, Repr

/-- Whether the `Frame` class defined in frame.py has a `create_layer`
method.  It does not — `AnimationLoop._create_buffers` nevertheless
calls `self._frame.create_layer()`. -/
def frameHasCreateLayer : Bool := false

/-- The attribute lookup `frame.create_layer` performed by
`_create_buffers`: looking up a missing attribute raises
`AttributeError`. -/
def frameCreateLayer : Except PyErr Unit :=
  if frameHasCreateLayer then Except.ok () else Except.error PyErr.attributeError

/-- `Renderer._flush()`: drain both queues, unless the renderer is
running. -/
def flushRend (s : RendSt) : RendSt :=
  if s.running then s else { s with avail := 0, active := 0 }

/-- One renderer's share of `AnimationLoop._create_buffers`: `_flush`
its queues, then request `NUM_BUFFERS` layers from
`self._frame.create_layer()` and hand them over via `_free_layer`.
The very first attribute lookup raises on the frame.py `Frame`, leaving
the renderer flushed. -/
def createBuffersOne (s : RendSt) : Option PyErr × RendSt :=
  match frameCreateLayer with
  | Except.error e => (some e, flushRend s)
  | Except.ok _ =>
      (none, { flushRend s with avail := (flushRend s).avail + NUM_BUFFERS })

/-- `AnimationLoop._create_buffers` over the renderer list, stopping at
the first error and leaving the remaining renderers untouched. -/
def createBuffersList : List RendSt → Option PyErr × List RendSt
  | [] => (none, [])
  | s :: rest =>
      match createBuffersOne s with
      | (some e, s2) => (some e, s2 :: rest)
      | (none, s2) =>
          let r := createBuffersList rest
          (r.1, s2 :: r.2)

/-- `AnimationLoop.start()`: refuse when already running or when no
renderers are configured; otherwise reset the frame (its transmission is
not tracked here), set the internal running flag, and run
`_create_buffers`.  An exception from the `create_layer` call
propagates to the caller with the internal flag left set and no
animation task started; only when `_create_buffers` completes does
`start` return True. -/
def loopStart (l : LoopSt) : Except PyErr Bool × LoopSt :=
  if l.running then (Except.ok false, l)
  else if l.rend.length = 0 then (Except.ok false, l)
  else
    let r := createBuffersList l.rend
    match r.1 with
    | some e => (Except.error e, { running := true, rend := r.2 })
    | none => (Except.ok true, { running := true, rend := r.2 })

/-- State of an `AnimationManager`: the `running` trait, the configured
renderers and the loop constructed by `start`. -/
structure MgrSt where
  running : Bool
  renderers : List RendSt
  loopSt : Option LoopSt
  deriving DecidableEq, Repr

/-- `AnimationManager.start(blend_mode)`: refuse when `running` or when
no renderers are configured; otherwise construct an `AnimationLoop` over
the configured renderers and start it, setting `running` only when
`loop.start()` returns True; an exception raised by `loop.start()`
propagates to the caller with `running` unchanged and the loop object
assigned. -/
def mgrStart (m : MgrSt) : Except PyErr Bool × MgrSt :=
  if m.running then (Except.ok false, m)
  else if m.renderers.length = 0 then (Except.ok false, m)
  else
    let r := loopStart { running := false, rend := m.renderers }
    match r.1 with
    | Except.error e => (Except.error e, { m with loopSt := some r.2 })
    | Except.ok true =>
        (Except.ok true, { m with running := true, loopSt := some r.2 })
    | Except.ok false => (Except.ok false, { m with loopSt := some r.2 })

/-! ## Manager renderer registry (`AnimationManager.add_renderer`) -/

/-- State of the manager's renderer registry: the `running` trait, the
z-orders of the configured renderers (each renderer is represented by
the z-order assigned at its creation), and the keys of the discovered
renderer classes (`renderer_info`). -/
structure RegSt where
  running : Bool
  renderers : List ℕ
  known : List String
  deriving DecidableEq, Repr

/-- `AnimationManager._get_renderer(name, **traits)`: `None` when the
name is not a discovered key; otherwise the class is instantiated with
`zorder = len(self.renderers)` (`ctorOk = false` models the constructor
raising `ImportError`, which is caught and yields `None`). -/
def getRenderer (s : RegSt) (name : String) (ctorOk : Bool) : Option ℕ :=
  if name ∈ s.known then
    if ctorOk then some s.renderers.length else none
  else none

/-- `AnimationManager.add_renderer(name, **traits)`: `-1` when the
renderer cannot be instantiated or its `init` returns False; otherwise
the renderer is appended and its z-order returned.  The source performs
no check of the `running` flag. -/
def addRenderer (s : RegSt) (name : String) (ctorOk initOk : Bool) :
    ℤ × RegSt :=
  match getRenderer s name ctorOk with
  | none => (-1, s)
  | some z =>
      if initOk then ((z : ℤ), { s with renderers := s.renderers ++ [z] })
      else (-1, s)

/-! ## The compositing-cycle commit (`AnimationLoop._commit_layers`) -/

/-- Number of parameters besides `self` of `Frame.commit` as defined in
frame.py (`def commit(self)`). -/
def commitArity : ℕ := 0

/-- Number of positional arguments passed to `frame.commit` by
`AnimationLoop._commit_layers` (`self._frame.commit(self._active_bufs)`). -/
def commitLayersCallArgs : ℕ := 1

/-- Python call semantics for `Frame.commit`: a bound-method call whose
argument count differs from the parameter count raises `TypeError`;
otherwise the body issues the display-flip event. -/
def callFrameCommit (nargs : ℕ) : Except PyErr (List Event) :=
  if nargs = commitArity then Except.ok [Event.customFrame]
  else Except.error PyErr.typeError

/-- The transport events produced by one execution of
`AnimationLoop._commit_layers`. -/
def commitLayersRun : Except PyErr (List Event) :=
  callFrameCommit commitLayersCallArgs

/-! ## Concrete frames and states used as witnesses and counterexamples -/

/-- A 3×30 frame (wider than `MAX_WIDTH`). -/
def frameC1 : Frame :=
  { width := 30, height := 3,
    matrix := List.replicate 3 (List.replicate 30 czero), base := (0, 0, 0) }

/-- A 1×1 frame holding a single opaque red pixel. -/
def frameC2 : Frame :=
  { width := 1, height := 1, matrix := [[⟨1, 0, 0, 1⟩]], base := (0, 0, 0) }

/-- A 2×2 all-clear frame. -/
def frameC4 : Frame :=
  { width := 2, height := 2, matrix := [[czero, czero], [czero, czero]],
    base := (0, 0, 0) }

/-- Opaque red. -/
def redC : PColor := ⟨1, 0, 0, 1⟩

/-! ## C1: matrix-mode chunking -/

/-- C1: serializing a Framebuffer with height H > 1 in matrix mode
issues exactly H transactions, one per row in ascending row order, each
with start column 0 and column count `min(W, 24)`, and with
`remaining_packets = H - row - 1`, strictly decreasing to 0 on the last
row. -/
theorem c1_matrix_mode_chunking (f : Frame) (fid : Option ℕ) (q : Bool)
    (h : 1 < f.height) :
    (f.setFrameData fid q).length = f.height ∧
    (∀ i, i < f.height →
      (f.setFrameData fid q)[i]? =
        some (Event.matrixRow (fid.getD DEFAULT_FRAME_ID) i 0
          (min f.width MAX_WIDTH)
          ((f.asImg.getD i []).take (min f.width MAX_WIDTH))
          (if q then some 0x80 else none) (f.height - i - 1))) ∧
    (∀ i, i + 1 < f.height → f.height - (i + 1) - 1 < f.height - i - 1) ∧
    f.height - (f.height - 1) - 1 = 0 := by
  have hne : f.height ≠ 1 := by omega
  refine ⟨?_, ?_, ?_, ?_⟩
  · simp [Frame.setFrameData, Frame.setFrameDataMatrix, hne]
  · intro i hi
    simp [Frame.setFrameData, Frame.setFrameDataMatrix, hne,
      List.getElem?_range hi]
  · intro i hi; omega
  · omega

/-- Witness for C1 at a concrete 3×30 frame. -/
theorem c1_matrix_mode_chunking_witness :
    1 < frameC1.height ∧
    (frameC1.setFrameData none false).length = frameC1.height :=
  ⟨by decide, (c1_matrix_mode_chunking frameC1 none false (by decide)).1⟩

/-! ## C9: single-row mode -/

/-- C9: a Framebuffer with height exactly 1 serializes via single-row
mode into exactly one transaction carrying start column 0, column count
`min(width, 24)` and the pixels of the sole row. -/
theorem c9_single_row_mode (f : Frame) (fid : Option ℕ) (q : Bool)
    (h : f.height = 1) :
    f.setFrameData fid q =
      [Event.singleRow 0 (min f.width MAX_WIDTH)
        ((f.asImg.headD []).take (min f.width MAX_WIDTH)) (some 0x80)] := by
  simp [Frame.setFrameData, Frame.setFrameDataSingle, h]

/-- Witness for C9: a 1×1 Framebuffer serializes into exactly one
transaction. -/
theorem c9_single_row_mode_witness :
    frameC2.height = 1 ∧ (frameC2.setFrameData none false).length = 1 := by
  refine ⟨rfl, ?_⟩
  rw [c9_single_row_mode frameC2 none false rfl]
  rfl

/-! ## C2: update versus prepare + commit -/

/-- C2 counterexample: on a 1×1 frame holding a red pixel, `update`
does not leave the same state as `prepare` followed by `commit` —
`prepare` clears the buffer, `update` leaves it untouched. -/
theorem c2_update_neq_prepare_commit :
    Frame.updateRun frameC2 none false ≠
      Frame.prepareThenCommit frameC2 none false := by
  decide

/-- C2 amended: `update(frame_id)` issues exactly the same transport
sequence as `prepare(frame_id)` followed by `commit()`, but the buffer
contents differ: `update` leaves the Framebuffer untouched while
`prepare` clears it. -/
theorem c2_update_refines_prepare_commit (f : Frame) (fid : Option ℕ)
    (q : Bool) :
    (f.updateRun fid q).2 = (f.prepareThenCommit fid q).2 ∧
    (f.updateRun fid q).1 = f ∧
    (f.prepareThenCommit fid q).1 = f.clear := by
  refine ⟨?_, rfl, rfl⟩
  simp [Frame.updateRun, Frame.prepareThenCommit, Frame.prepareRun,
    Frame.commitRun]

/-! ## C3: the compositing-cycle commit call -/

/-- C3: every execution of `AnimationLoop._commit_layers` raises
`TypeError`, because it passes the active buffer array to
`Frame.commit`, which takes no arguments — no z-order merge is performed
and no transport event is issued. -/
theorem c3_commit_layers_type_error :
    commitLayersRun = Except.error PyErr.typeError := by
  rfl

/-! ## C4: drawing-primitive bounds safety -/

/-- C4: `Frame.line` raises `ValueError` on every call — here evaluated
at a concrete diagonal line on a 2×2 frame — because the source passes
the coverage array as a third component of the coordinate tuple that
`_set_color` unpacks into exactly two, so the claimed
discard-and-never-raise behavior does not hold for `line`. -/
theorem c4_line_always_raises :
    frameC4.line [0, 1] [0, 1] [1, 1] redC =
      Except.error PyErr.valueError := by
  rfl

/-! ## C5: add_renderer -/

/-- A registry whose loop is currently running and which knows one
renderer kind. -/
def regC5 : RegSt :=
  { running := true, renderers := [], known := ["uchroma.fxlib.Plasma"] }

/-- A stopped registry knowing one renderer kind. -/
def regC5b : RegSt :=
  { running := false, renderers := [], known := ["uchroma.fxlib.Plasma"] }

/-- C5 counterexample: with the loop running, a known renderer kind and
a successful `init`, `add_renderer` does not return the sentinel `-1`
and does not leave the renderer list unchanged — the source never
consults the running flag. -/
theorem c5_add_renderer_ignores_running :
    (addRenderer regC5 "uchroma.fxlib.Plasma" true true).1 ≠ -1 ∧
    (addRenderer regC5 "uchroma.fxlib.Plasma" true true).2 ≠ regC5 := by
  constructor
  · decide
  · intro h
    have := congrArg RegSt.renderers h
    simp [addRenderer, getRenderer, regC5] at this

/-- C5 amended: `add_renderer(kind, config)` instantiates a renderer
with z-order equal to the current renderer count, runs its init, appends
it and returns that z-order; it returns the sentinel `-1`, leaving the
renderer list unchanged, whenever the named renderer kind is unknown,
its construction raises `ImportError`, or init fails — but it performs
no check of the running flag. -/
theorem c5_add_renderer_amended (s : RegSt) (name : String)
    (ctorOk initOk : Bool) :
    (name ∈ s.known → ctorOk = true → initOk = true →
      addRenderer s name ctorOk initOk =
        ((s.renderers.length : ℤ),
         { s with renderers := s.renderers ++ [s.renderers.length] })) ∧
    (name ∉ s.known ∨ ctorOk = false ∨ initOk = false →
      addRenderer s name ctorOk initOk = (-1, s)) := by
  constructor
  · intro h hc hi
    simp [addRenderer, getRenderer, h, hc, hi]
  · intro h
    rcases h with h | h | h
    · simp [addRenderer, getRenderer, h]
    · subst h
      by_cases hk : name ∈ s.known <;> simp [addRenderer, getRenderer, hk]
    · subst h
      by_cases hk : name ∈ s.known
      · by_cases hc : ctorOk = true <;>
          simp [addRenderer, getRenderer, hk, hc]
      · simp [addRenderer, getRenderer, hk]

/-- Witness for C5 at a concrete stopped registry: the appended renderer
receives z-order 0 and that z-order is returned. -/
theorem c5_add_renderer_amended_witness :
    "uchroma.fxlib.Plasma" ∈ regC5b.known ∧
    addRenderer regC5b "uchroma.fxlib.Plasma" true true =
      (0, { regC5b with renderers := [0] }) := by
  refine ⟨by decide, ?_⟩
  have h := (c5_add_renderer_amended regC5b "uchroma.fxlib.Plasma" true
    true).1 (by decide) rfl rfl
  simpa [regC5b] using h

/-! ## C6: starting the Manager and the loop -/

/-- An already-running manager with one configured renderer. -/
def mgrRunning : MgrSt :=
  { running := true, renderers := [freshRendSt], loopSt := none }

/-- A stopped manager with one configured renderer. -/
def mgrReady : MgrSt :=
  { running := false,
    renderers := [{ avail := 0, active := 0, held := 0, running := false }],
    loopSt := none }

/-- C6: starting a stopped Manager with one configured renderer never
returns true — `_create_buffers` reaches the `frame.create_layer` call,
which raises `AttributeError` on the frame.py `Frame`, so the error
propagates, the Manager's `running` trait stays false and the loop's
internal flag is left set; starting while already running returns false
with the flag remaining true, and the zero-renderer start returns false
leaving all state unchanged. -/
theorem c6_start_raises_attribute_error :
    (mgrStart mgrReady).1 = Except.error PyErr.attributeError ∧
    (mgrStart mgrReady).2.running = false ∧
    (mgrStart mgrReady).2.loopSt =
      some { running := true, rend := mgrReady.renderers } ∧
    mgrStart mgrRunning = (Except.ok false, mgrRunning) ∧
    mgrStart { running := false, renderers := [], loopSt := none } =
      (Except.ok false, { running := false, renderers := [], loopSt := none }) :=
  ⟨rfl, rfl, rfl, rfl, rfl⟩

/-! ## C7: transport error propagation -/

/-- A transport that rejects every write with error code 7. -/
def trC7 : Transport := fun _ => some 7

/-- A 1×1 frame with a green pixel, serialized against `trC7`. -/
def frameC7 : Frame :=
  { width := 1, height := 1, matrix := [[⟨0, 1, 0, 1⟩]], base := (0, 0, 0) }

/-- C7: if the transport raises an error during serialization, both
`update` and `prepare` propagate exactly that error to the caller, the
backing matrix is restored to writable on the exit path, and the pixel
contents are unchanged; writability is restored on every exit path. -/
theorem c7_transport_error_propagation (f : Frame) (tr : Transport)
    (fid : Option ℕ) (q : Bool) :
    (f.updateF tr fid q).2.writable = true ∧
    (f.prepareF tr fid q).2.writable = true ∧
    (∀ e, firstFailure tr (f.setFrameData fid q) = some e →
      (f.updateF tr fid q).1 = Except.error e ∧
      (f.updateF tr fid q).2.matrix = f.matrix ∧
      (f.prepareF tr fid q).1 = Except.error e ∧
      (f.prepareF tr fid q).2.matrix = f.matrix) := by
  have hsend : ∀ l : List Event, sendEvents tr l =
      (match firstFailure tr l with
       | some e => Except.error e
       | none => Except.ok ()) := by
    intro l
    induction l with
    | nil => rfl
    | cons e rest ih =>
        simp only [sendEvents, firstFailure]
        cases tr e <;> simp [ih]
  refine ⟨?_, ?_, ?_⟩
  · simp [Frame.updateF]
  · rw [Frame.prepareF]
    cases hs : sendEvents tr (f.setFrameData fid q) with
    | error e => simp
    | ok u => simp
  · intro e he
    have hs : sendEvents tr (f.setFrameData fid q) = Except.error e := by
      rw [hsend, he]
    refine ⟨?_, ?_, ?_, ?_⟩
    · simp [Frame.updateF, hs]
    · simp [Frame.updateF]
    · simp [Frame.prepareF, hs]
    · simp [Frame.prepareF, hs]

/-- Witness for C7: the always-failing transport makes `update` on a
concrete frame surface error code 7 unchanged. -/
theorem c7_transport_error_propagation_witness :
    firstFailure trC7 (frameC7.setFrameData none false) = some 7 ∧
    (frameC7.updateF trC7 none false).1 = Except.error 7 :=
  ⟨by decide,
   ((c7_transport_error_propagation frameC7 trC7 none false).2.2 7
     (by decide)).1⟩

/-! ## C10: layer leak on a False draw -/

/-- The renderer state after the free pool has been exhausted by leaks. -/
def drainedRendSt : RendSt :=
  { avail := 0, active := 0, held := 0, running := true }

/-- C10: in an iteration of `Renderer._run` in which `draw` completes
but returns False while the renderer is still running, the acquired
Layer is neither enqueued for composition nor returned to the free pool,
so the circulating Layer count permanently decreases by one — no
renderer or compositor step ever increases it — and after two such
iterations from a freshly started renderer every subsequent acquisition
blocks forever. -/
theorem c10_false_draw_leaks_layer (s : RendSt) (hrun : s.running = true)
    (havail : 0 < s.avail) :
    (runIteration s DrawOutcome.notDrawn =
        some { s with avail := s.avail - 1 } ∧
      { s with avail := s.avail - 1 }.active = s.active ∧
      { s with avail := s.avail - 1 }.held = s.held ∧
      circulating { s with avail := s.avail - 1 } + 1 = circulating s) ∧
    (∀ t o t2, runIteration t o = some t2 →
      circulating t2 ≤ circulating t) ∧
    (∀ t t2, dequeueStep t = some t2 → circulating t2 ≤ circulating t) ∧
    ((runIteration freshRendSt DrawOutcome.notDrawn).bind
        (fun u => runIteration u DrawOutcome.notDrawn) = some drainedRendSt) ∧
    (∀ o, runIteration drainedRendSt o = none) ∧
    dequeueStep drainedRendSt = none := by
  have havail0 : s.avail ≠ 0 := by omega
  refine ⟨⟨?_, rfl, rfl, ?_⟩, ?_, ?_, ?_, ?_, ?_⟩
  · simp [runIteration, hrun, havail0]
  · simp [circulating]; omega
  · intro t o t2 h
    by_cases h1 : t.running = false
    · simp [runIteration, h1] at h
    · by_cases h2 : t.avail = 0
      · simp [runIteration, h1, h2] at h
      · cases o <;>
          · simp [runIteration, h1, h2] at h
            subst h
            simp [circulating]
            try omega
  · intro t t2 h
    by_cases h1 : t.active = 0
    · simp [dequeueStep, h1] at h
    · simp [dequeueStep, h1] at h
      subst h
      by_cases h2 : 0 < t.held <;> simp [circulating, h2] <;> omega
  · rfl
  · intro o; cases o <;> rfl
  · rfl

/-- Witness for C10 at the freshly started renderer state. -/
theorem c10_false_draw_leaks_layer_witness :
    (freshRendSt.running = true ∧ 0 < freshRendSt.avail) ∧
    runIteration freshRendSt DrawOutcome.notDrawn =
      some { freshRendSt with avail := freshRendSt.avail - 1 } :=
  ⟨⟨rfl, by decide⟩,
   (c10_false_draw_leaks_layer freshRendSt rfl (by decide)).1.1⟩

/-! ## C8: put/get roundtrip -/

/-- At a coverage fraction of 1 the blend fully overwrites the old cell
value. -/
theorem blend_alpha_one (old c : PColor) : blend old c 1 = c := by
  cases c
  simp [blend]

/-- Reading back the cell just written. -/
theorem getCell_setCell_self (m : PMatrix) (r c : ℕ) (v : PColor)
    (hr : r < m.length) (hc : c < (m.getD r []).length) :
    getCell (setCell m r c v) r c = v := by
  unfold getCell setCell
  simp only [List.getD_eq_getElem?_getD]
  rw [List.getElem?_set_self (by simpa using hr)]
  simp only [Option.getD_some]
  rw [List.getElem?_set_self (by simpa using hc)]
  rfl

/-- A 2×2 all-clear frame for the C8 witness. -/
def frameC8 : Frame :=
  { width := 2, height := 2, matrix := [[czero, czero], [czero, czero]],
    base := (0, 0, 0) }

/-- C8: for every in-bounds coordinate of a well-formed Framebuffer and
every color, `put` followed by `get` at that coordinate returns the
written color — the alpha-1 write fully overwrites the cell. -/
theorem c8_put_get_roundtrip (f : Frame) (row col : ℕ) (c : PColor)
    (hwf : f.wf) (hr : row < f.height) (hc : col < f.width) :
    (f.put (row : ℤ) (col : ℤ) c).map (fun g => g.get row col) =
      Except.ok c := by
  have hml : f.matrix.length = f.height := hwf.1
  have hrow : row < f.matrix.length := by omega
  have hrowlen : (f.matrix.getD row []).length = f.width := by
    rw [List.getD_eq_getElem?_getD, List.getElem?_eq_getElem hrow]
    exact hwf.2 _ (List.getElem_mem hrow)
  have hhead : (f.matrix.headD []).length = f.width := by
    cases hm : f.matrix with
    | nil => rw [hm] at hrow; simp at hrow
    | cons a l =>
        simp only [List.headD_cons]
        exact hwf.2 a (by rw [hm]; exact List.mem_cons_self a l)
  have hins : insideMask f.matrix (row : ℤ) (col : ℤ) = true := by
    simp only [insideMask, shape0, shape1, Bool.and_eq_true, decide_eq_true_eq]
    refine ⟨⟨⟨Int.natCast_nonneg row, ?_⟩, Int.natCast_nonneg col⟩, ?_⟩
    · exact_mod_cast hrow
    · rw [hhead]; exact_mod_cast hc
  have hcell : col < (f.matrix.getD row []).length := by omega
  simp only [Frame.put, set_color, setColorOk, coords_inside_image,
    List.zip, List.zipWith, List.replicate, List.filter, hins,
    List.map, Int.toNat_ofNat, List.foldl, Except.map, blend_alpha_one]
  simp only [Frame.get]
  rw [getCell_setCell_self f.matrix row col c hrow hcell]

/-- Witness for C8 on a concrete 2×2 frame. -/
theorem c8_put_get_roundtrip_witness :
    (frameC8.wf ∧ 1 < frameC8.height ∧ 0 < frameC8.width) ∧
    (frameC8.put (1 : ℤ) (0 : ℤ) redC).map (fun g => g.get 1 0) =
      Except.ok redC :=
  ⟨⟨by decide, by decide, by decide⟩,
   c8_put_get_roundtrip frameC8 1 0 redC (by decide) (by decide) (by decide)⟩

end UChroma
